import Mathlib

/-!
Verification of the session-lifecycle / conversation-store core of the
chat-automation repository (`src/manager.py`, `src/base.py`).

The Python code is shallowly embedded: pure data manipulation becomes Lean
functions over explicit state; calls into collaborators (Playwright, the
network, the file system, `datetime.now()`) are modelled by explicit outcome
parameters, so each Lean function is a faithful transcription of the control
flow of the corresponding Python method, parameterized by what the outside
world did.
-/

namespace ChatAutomation

/-! ## Strings: Python's `needle in haystack` -/

/-- Does `pat` occur at the head of `l`? (helper for substring containment). -/
def leadEq : List Char → List Char → Bool
  | [], _ => true
  | _ :: _, [] => false
  | a :: as, b :: bs => a == b && leadEq as bs

/-- Does `pat` occur anywhere inside `l`? -/
def listHasSub (pat : List Char) : List Char → Bool
  | [] => leadEq pat []
  | b :: bs => leadEq pat (b :: bs) || listHasSub pat bs

/-- Python's `needle in hay` for strings. -/
def strHasSub (hay needle : String) : Bool :=
  listHasSub needle.toList hay.toList

/-! ## Data model (`manager.py` dataclasses `Message`, `Conversation`) -/

/-- `Message` dataclass: role ("user" or "assistant"), content, timestamp. -/
structure Message where
  role : String
  content : String
  timestamp : String
deriving DecidableEq, Repr

/-- `Conversation` dataclass. -/
structure Conversation where
  id : String
  title : String
  messages : List Message
  created_at : String
  updated_at : String
  url : Option String
deriving DecidableEq, Repr

/-! ## Serialized conversation files

`export_conversation` dumps a JSON dict and `load_conversation` reads one
back with `json.load`; `json.dump`/`json.load` round-trip the dict exactly,
so the file is modelled by its parsed dict.  Optional fields model key
presence: `none` means the key is absent (or, for `url`, JSON `null`, which
`data.get('url')` cannot distinguish from absence). -/

/-- One entry of the `"messages"` list of a conversation file. -/
structure MsgData where
  role : Option String
  content : Option String
  timestamp : Option String
deriving DecidableEq, Repr

/-- The parsed dict of a conversation file. -/
structure ConvData where
  id : Option String
  title : Option String
  messages : Option (List MsgData)
  created_at : Option String
  updated_at : Option String
  url : Option String
deriving DecidableEq, Repr

/-- `_update_conversation_url`: if a live page url is readable and contains
`'/c/'`, the conversation's `url` is overwritten with it; `pageUrl = none`
models "no browser / no page / url read failed" (all swallowed). -/
def update_conversation_url (pageUrl : Option String) (c : Conversation) : Conversation :=
  match pageUrl with
  | some u => if strHasSub u "/c/" then { c with url := some u } else c
  | none => c

/-- The dict entry `export_conversation` writes for one message. -/
def msgToData (m : Message) : MsgData :=
  { role := some m.role, content := some m.content, timestamp := some m.timestamp }

/-- The dict `export_conversation` serializes (all keys present). -/
def exportData (c : Conversation) : ConvData :=
  { id := some c.id
    title := some c.title
    messages := some (c.messages.map msgToData)
    created_at := some c.created_at
    updated_at := some c.updated_at
    url := c.url }

/-- `export_conversation`: refresh the url from the live page, then dump. -/
def export_conversation (pageUrl : Option String) (c : Conversation) : ConvData :=
  exportData (update_conversation_url pageUrl c)

/-- How `load_conversation` rebuilds one `Message` from a dict entry,
with `m.get` defaults `'unknown'` / `''` / `''`. -/
def msgFromData (m : MsgData) : Message :=
  { role := m.role.getD "unknown"
    content := m.content.getD ""
    timestamp := m.timestamp.getD "" }

/-- The deserialization step of `load_conversation`: require the five keys
`id`, `title`, `messages`, `created_at`, `updated_at` (else the load fails),
and take `url` by `data.get('url')`. -/
def conversationFromData (d : ConvData) : Option Conversation :=
  match d.id, d.title, d.messages, d.created_at, d.updated_at with
  | some i, some t, some ms, some ca, some ua =>
      some { id := i, title := t, messages := ms.map msgFromData
             created_at := ca, updated_at := ua, url := d.url }
  | _, _, _, _, _ => none

theorem msgFromData_msgToData (m : Message) : msgFromData (msgToData m) = m := rfl

/-- Sample conversation used by concrete witnesses. -/
def convEx : Conversation :=
  { id := "c1", title := "t", messages := [{ role := "user", content := "hi", timestamp := "T1" }]
    created_at := "T0", updated_at := "T0", url := none }

/-- C1: exporting a conversation and loading the resulting file yields the
conversation back field-for-field, provided the live-page url refresh during
export leaves the conversation unchanged (no live browser page changes the
url during export). -/
theorem c1_export_then_load_roundtrip (pageUrl : Option String) (c : Conversation)
    (h : update_conversation_url pageUrl c = c) :
    conversationFromData (export_conversation pageUrl c) = some c := by
  unfold export_conversation
  rw [h]
  simp [exportData, conversationFromData, List.map_map, Function.comp_def,
    msgFromData_msgToData]

theorem c1_export_then_load_roundtrip_witness :
    update_conversation_url none convEx = convEx ∧
      conversationFromData (export_conversation none convEx) = some convEx :=
  ⟨rfl, c1_export_then_load_roundtrip none convEx rfl⟩

/-! ## Outcomes of calls into the outside world

A Python call either returns a value or raises; the exception is modelled by
its `str(e)` message. -/

/-- Result of a Python call: a return value, or a raised exception carrying
its message. -/
inductive Outcome (α : Type) where
  | ok : α → Outcome α
  | exn : String → Outcome α
deriving DecidableEq, Repr

/-- Did the call return normally? -/
def okB {α : Type} : Outcome α → Bool
  | .ok _ => true
  | .exn _ => false

/-! ## `_ensure_browser` / `_is_browser_alive` (`manager.py`)

A `ChatGPTAutomation` handle is identified by a `Nat`; the manager state
relevant here is `self._chatgpt : Option Nat`.  `EnsureEnv` records what the
collaborators do during one `_ensure_browser` call. -/

/-- Environment of one `_ensure_browser` call. -/
structure EnsureEnv where
  /-- `self._chatgpt.page` exists and `page.evaluate("1 + 1")` succeeds
  (the body of `_is_browser_alive` past the `None` checks). -/
  alive : Bool
  /-- Identity of the freshly constructed `ChatGPTAutomation(self.config)`. -/
  newHandle : Nat
  /-- First `self._chatgpt.start()` attempt. -/
  start1 : Outcome Unit
  /-- Result of `self._start_daemon()`. -/
  daemonOk : Bool
  /-- Second `self._chatgpt.start()` attempt (after the daemon started). -/
  start2 : Outcome Unit
  /-- Reading `self._chatgpt.page.url`. -/
  urlRead : Outcome String
  /-- `goto("https://chatgpt.com")` inside the `try` block. -/
  nav1 : Outcome Unit
  /-- `goto("https://chatgpt.com")` inside the `except` block. -/
  nav2 : Outcome Unit
deriving DecidableEq, Repr

/-- `_is_browser_alive`: false when no handle (or no page / failed eval). -/
def is_browser_alive (env : EnsureEnv) : Option Nat → Bool
  | none => false
  | some _ => env.alive

/-- The `start()` block of `_ensure_browser`: on a RuntimeError containing
"Browser daemon not running", start the daemon and retry `start()` once;
if the daemon fails to start, raise "Failed to start browser daemon";
any other exception propagates. -/
def startPhase (env : EnsureEnv) : Outcome Unit :=
  match env.start1 with
  | .ok _ => .ok ()
  | .exn m =>
    if strHasSub m "Browser daemon not running" then
      if env.daemonOk then env.start2
      else .exn "Failed to start browser daemon"
    else .exn m

/-- The navigation block of `_ensure_browser`: read the page url; if it does
not contain "chatgpt.com", `goto` ChatGPT; any failure in the `try` block is
caught and answered by a second `goto`, whose failure propagates. -/
def navPhase (env : EnsureEnv) : Outcome Unit :=
  match env.urlRead with
  | .ok u =>
    if strHasSub u "chatgpt.com" then .ok ()
    else
      match env.nav1 with
      | .ok _ => .ok ()
      | .exn _ => env.nav2
  | .exn _ => env.nav2

/-- Result of `_ensure_browser`: the returned handle (or the propagated
exception), the new `self._chatgpt`, and how many reconnect cycles ran. -/
structure EnsureResult where
  result : Outcome Nat
  chatgpt : Option Nat
  reconnects : Nat
deriving DecidableEq, Repr

/-- The reconnect branch of `_ensure_browser`: construct a fresh handle
(assigned to `self._chatgpt` before `start()` is awaited), run the start
block, then the navigation block. -/
def reconnect (env : EnsureEnv) : EnsureResult :=
  match startPhase env with
  | .exn m => { result := .exn m, chatgpt := some env.newHandle, reconnects := 1 }
  | .ok _ =>
    match navPhase env with
    | .exn m => { result := .exn m, chatgpt := some env.newHandle, reconnects := 1 }
    | .ok _ => { result := .ok env.newHandle, chatgpt := some env.newHandle, reconnects := 1 }

/-- `_ensure_browser`: reconnect iff `self._chatgpt is None` or the liveness
probe fails; otherwise return the existing handle untouched. -/
def ensure_browser (env : EnsureEnv) : Option Nat → EnsureResult
  | none => reconnect env
  | some h =>
    if env.alive then { result := .ok h, chatgpt := some h, reconnects := 0 }
    else reconnect env

/-- `_restart_browser`: `stop()` with exceptions swallowed, set
`self._chatgpt = None`, then `_ensure_browser` (which always reconnects). -/
def restart_browser (env : EnsureEnv) : EnsureResult :=
  ensure_browser env none

theorem reconnect_chatgpt (env : EnsureEnv) : (reconnect env).chatgpt = some env.newHandle := by
  unfold reconnect
  cases startPhase env with
  | exn m => rfl
  | ok u =>
    cases navPhase env with
    | exn m => rfl
    | ok v => rfl

theorem reconnect_reconnects (env : EnsureEnv) : (reconnect env).reconnects = 1 := by
  unfold reconnect
  cases startPhase env with
  | exn m => rfl
  | ok u =>
    cases navPhase env with
    | exn m => rfl
    | ok v => rfl

/-- Environment in which every collaborator call succeeds and the existing
handle is alive. -/
def ensureEnvOk : EnsureEnv :=
  { alive := true, newHandle := 1, start1 := .ok (), daemonOk := true, start2 := .ok ()
    urlRead := .ok "https://chatgpt.com/", nav1 := .ok (), nav2 := .ok () }

/-- Environment in which the liveness probe fails but the reconnect cycle
succeeds. -/
def ensureEnvDead : EnsureEnv :=
  { ensureEnvOk with alive := false, newHandle := 2 }

/-- Environment in which connecting fails outright: `start()` raises
"Browser daemon not running" and `_start_daemon` returns `False`, so
`_ensure_browser` raises "Failed to start browser daemon". -/
def ensureEnvFail : EnsureEnv :=
  { alive := false, newHandle := 3
    start1 := .exn "Browser daemon not running. Start it with: ./chatgpt-daemon start"
    daemonOk := false, start2 := .ok ()
    urlRead := .ok "https://chatgpt.com/", nav1 := .ok (), nav2 := .ok () }

/-- C8: connecting is idempotent — when a handle is already held and the
health check reports alive, `_ensure_browser` performs no reconnect cycle,
returns the very same handle, and leaves the manager state unchanged. -/
theorem c8_ensure_browser_idempotent (env : EnsureEnv) (h : Nat) (halive : env.alive = true) :
    ensure_browser env (some h) =
      { result := .ok h, chatgpt := some h, reconnects := 0 } := by
  simp [ensure_browser, halive]

theorem c8_ensure_browser_idempotent_witness :
    ensureEnvOk.alive = true ∧
      ensure_browser ensureEnvOk (some 7) =
        { result := .ok 7, chatgpt := some 7, reconnects := 0 } :=
  ⟨rfl, c8_ensure_browser_idempotent ensureEnvOk 7 rfl⟩

/-! ## `start_conversation` and `send` (`manager.py`) -/

/-- `start_conversation`: fresh id `"conv_" ++ strftime-stamp`, default title
`"Conversation {id}"`, empty messages; `created_at` and `updated_at` come
from two separate `datetime.now()` calls. -/
def start_conversation (idStamp ts1 ts2 : String) (title : Option String) : Conversation :=
  let convId := "conv_" ++ idStamp
  { id := convId
    title := title.getD ("Conversation " ++ convId)
    messages := []
    created_at := ts1
    updated_at := ts2
    url := none }

/-- Environment of one `send` call: what each collaborator call and each
`datetime.now()` read produces, in program order. -/
structure SendEnv where
  /-- `send`'s own `_ensure_browser()` call. -/
  e1 : EnsureEnv
  /-- The `_ensure_browser()` call made inside `_ensure_logged_in()` (the
  rest of `_ensure_logged_in` catches its own exceptions and its boolean
  result is ignored by `send`). -/
  e2 : EnsureEnv
  /-- The `self._chatgpt.chat(message, ...)` delivery call. -/
  chat : Outcome String
  /-- The page url read by `_update_conversation_url` inside `_auto_save`'s
  `export_conversation` (`none`: unreadable or no page). -/
  pageUrl : Option String
  /-- Writing the conversation file in `_auto_save`. -/
  save : Outcome Unit
  /-- The `_ensure_browser()` call made by `_restart_browser()` in the
  `except` handler. -/
  eR : EnsureEnv
  /-- Timestamp stamp used for a fresh conversation id. -/
  idStamp : String
  /-- `created_at` of a fresh conversation. -/
  ts1 : String
  /-- `updated_at` of a fresh conversation. -/
  ts2 : String
  /-- Timestamp of the appended user message. -/
  userTs : String
  /-- Timestamp of the appended assistant message. -/
  asstTs : String
  /-- The value written to `updated_at` after a successful exchange. -/
  updTs : String
deriving DecidableEq, Repr

/-- Result of one `send` call: the returned string or propagated exception,
the final in-memory conversation and handle, and event counters. -/
structure SendResult where
  ret : Outcome String
  conv : Option Conversation
  chatgpt : Option Nat
  /-- User messages appended during the call. -/
  userAppends : Nat
  /-- Assistant messages appended during the call. -/
  asstAppends : Nat
  /-- Times `_auto_save` attempted to write the conversation file. -/
  saveAttempts : Nat
  /-- Reconnect cycles run before the delivery attempt (by the two
  `_ensure_browser` calls). -/
  preReconnects : Nat
  /-- Reconnect cycles run after the delivery attempt (by
  `_restart_browser`). -/
  postReconnects : Nat
  /-- Times the delivery collaborator `chat` was invoked. -/
  chatCalls : Nat
deriving DecidableEq, Repr

/-- The conversation `send` works on: the current one, or the implicitly
created fresh one (`if self._current_conversation is None:
self.start_conversation()`). -/
def currentOrNew (env : SendEnv) (cur : Option Conversation) : Conversation :=
  match cur with
  | some c => c
  | none => start_conversation env.idStamp env.ts1 env.ts2 none

/-- The `try`/`except` body of `send`, entered after the user message has
been appended (`conv1` already holds it): deliver via `chat`; on success
append the assistant message, set `updated_at`, and `_auto_save` (which
first refreshes the url from the live page, then writes the file); any
exception in the `try` block triggers `_restart_browser()` and then the
string `"Error: " ++ str(e)` is returned — unless the restart itself
raises, in which case that exception propagates. -/
def sendCore (env : SendEnv) (pre : Nat) (cg : Option Nat) (conv1 : Conversation) : SendResult :=
  match env.chat with
  | .ok resp =>
    let conv2 : Conversation :=
      { conv1 with
        messages := conv1.messages ++ [{ role := "assistant", content := resp, timestamp := env.asstTs }]
        updated_at := env.updTs }
    let conv3 := update_conversation_url env.pageUrl conv2
    match env.save with
    | .ok _ =>
      { ret := .ok resp, conv := some conv3, chatgpt := cg
        userAppends := 1, asstAppends := 1, saveAttempts := 1
        preReconnects := pre, postReconnects := 0, chatCalls := 1 }
    | .exn m =>
      let rr := restart_browser env.eR
      match rr.result with
      | .ok _ =>
        { ret := .ok ("Error: " ++ m), conv := some conv3, chatgpt := rr.chatgpt
          userAppends := 1, asstAppends := 1, saveAttempts := 1
          preReconnects := pre, postReconnects := rr.reconnects, chatCalls := 1 }
      | .exn m2 =>
        { ret := .exn m2, conv := some conv3, chatgpt := rr.chatgpt
          userAppends := 1, asstAppends := 1, saveAttempts := 1
          preReconnects := pre, postReconnects := rr.reconnects, chatCalls := 1 }
  | .exn m =>
    let rr := restart_browser env.eR
    match rr.result with
    | .ok _ =>
      { ret := .ok ("Error: " ++ m), conv := some conv1, chatgpt := rr.chatgpt
        userAppends := 1, asstAppends := 0, saveAttempts := 0
        preReconnects := pre, postReconnects := rr.reconnects, chatCalls := 1 }
    | .exn m2 =>
      { ret := .exn m2, conv := some conv1, chatgpt := rr.chatgpt
        userAppends := 1, asstAppends := 0, saveAttempts := 0
        preReconnects := pre, postReconnects := rr.reconnects, chatCalls := 1 }

/-- `send`: create the conversation if none is current; run
`_ensure_browser` and `_ensure_logged_in` (whose exceptions propagate with
nothing appended); append the user message; then the `try`/`except` body. -/
def send (env : SendEnv) (cg : Option Nat) (cur : Option Conversation) (message : String) : SendResult :=
  let conv0 := currentOrNew env cur
  let r1 := ensure_browser env.e1 cg
  match r1.result with
  | .exn m =>
    { ret := .exn m, conv := some conv0, chatgpt := r1.chatgpt
      userAppends := 0, asstAppends := 0, saveAttempts := 0
      preReconnects := r1.reconnects, postReconnects := 0, chatCalls := 0 }
  | .ok _ =>
    let r2 := ensure_browser env.e2 r1.chatgpt
    match r2.result with
    | .exn m =>
      { ret := .exn m, conv := some conv0, chatgpt := r2.chatgpt
        userAppends := 0, asstAppends := 0, saveAttempts := 0
        preReconnects := r1.reconnects + r2.reconnects, postReconnects := 0, chatCalls := 0 }
    | .ok _ =>
      sendCore env (r1.reconnects + r2.reconnects) r2.chatgpt
        { conv0 with
          messages := conv0.messages ++ [{ role := "user", content := message, timestamp := env.userTs }] }

/-- When both setup calls return normally, `send` reduces to `sendCore` on
the conversation with the user message appended. -/
theorem send_setup_ok (env : SendEnv) (cg : Option Nat) (cur : Option Conversation) (message : String)
    (h1 : okB (ensure_browser env.e1 cg).result = true)
    (h2 : okB (ensure_browser env.e2 (ensure_browser env.e1 cg).chatgpt).result = true) :
    send env cg cur message =
      sendCore env
        ((ensure_browser env.e1 cg).reconnects +
          (ensure_browser env.e2 (ensure_browser env.e1 cg).chatgpt).reconnects)
        (ensure_browser env.e2 (ensure_browser env.e1 cg).chatgpt).chatgpt
        { currentOrNew env cur with
          messages := (currentOrNew env cur).messages ++
            [{ role := "user", content := message, timestamp := env.userTs }] } := by
  unfold send
  cases hr1 : (ensure_browser env.e1 cg).result with
  | exn m => rw [hr1] at h1; simp [okB] at h1
  | ok a =>
    cases hr2 : (ensure_browser env.e2 (ensure_browser env.e1 cg).chatgpt).result with
    | exn m => rw [hr2] at h2; simp [okB] at h2
    | ok b => simp only [hr1, hr2]

theorem update_conversation_url_frame (p : Option String) (c : Conversation) :
    (update_conversation_url p c).id = c.id ∧
      (update_conversation_url p c).title = c.title ∧
      (update_conversation_url p c).created_at = c.created_at ∧
      (update_conversation_url p c).updated_at = c.updated_at ∧
      (update_conversation_url p c).messages = c.messages := by
  unfold update_conversation_url
  cases p with
  | none => exact ⟨rfl, rfl, rfl, rfl, rfl⟩
  | some u =>
    by_cases hu : strHasSub u "/c/" = true
    · simp [hu]
    · simp [hu]

theorem sendCore_userAppends (env : SendEnv) (pre : Nat) (cg : Option Nat) (conv1 : Conversation) :
    (sendCore env pre cg conv1).userAppends = 1 := by
  unfold sendCore
  cases env.chat <;> cases env.save <;>
    cases hrr : (restart_browser env.eR).result <;> simp [hrr]

theorem sendCore_asstAppends_le_one (env : SendEnv) (pre : Nat) (cg : Option Nat) (conv1 : Conversation) :
    (sendCore env pre cg conv1).asstAppends ≤ 1 := by
  unfold sendCore
  cases env.chat <;> cases env.save <;>
    cases hrr : (restart_browser env.eR).result <;> simp [hrr]

theorem sendCore_chatCalls (env : SendEnv) (pre : Nat) (cg : Option Nat) (conv1 : Conversation) :
    (sendCore env pre cg conv1).chatCalls = 1 := by
  unfold sendCore
  cases env.chat <;> cases env.save <;>
    cases hrr : (restart_browser env.eR).result <;> simp [hrr]

theorem sendCore_preReconnects (env : SendEnv) (pre : Nat) (cg : Option Nat) (conv1 : Conversation) :
    (sendCore env pre cg conv1).preReconnects = pre := by
  unfold sendCore
  cases env.chat <;> cases env.save <;>
    cases hrr : (restart_browser env.eR).result <;> simp [hrr]

theorem restart_browser_reconnects (env : EnsureEnv) :
    (restart_browser env).reconnects = 1 := by
  simp [restart_browser, ensure_browser, reconnect_reconnects]

/-- On a delivery failure (`chat` raises `m`), the user message survives
(`conv = some conv1`), nothing else was appended, no save was attempted,
exactly one browser restart ran, and — when that restart returns normally —
the call returns the string `"Error: " ++ m`. -/
theorem sendCore_delivery_exn (env : SendEnv) (pre : Nat) (cg : Option Nat) (conv1 : Conversation)
    (m : String) (hc : env.chat = .exn m) :
    (sendCore env pre cg conv1).conv = some conv1 ∧
      (sendCore env pre cg conv1).asstAppends = 0 ∧
      (sendCore env pre cg conv1).saveAttempts = 0 ∧
      (sendCore env pre cg conv1).postReconnects = 1 ∧
      (okB (restart_browser env.eR).result = true →
        (sendCore env pre cg conv1).ret = .ok ("Error: " ++ m)) := by
  unfold sendCore
  rw [hc]
  cases hrr : (restart_browser env.eR).result with
  | ok a =>
    exact ⟨by simp [hrr], by simp [hrr], by simp [hrr],
      by simp [hrr, restart_browser_reconnects],
      fun _ => by simp [hrr]⟩
  | exn m2 =>
    refine ⟨by simp [hrr], by simp [hrr], by simp [hrr],
      by simp [hrr, restart_browser_reconnects],
      fun hok => ?_⟩
    simp [okB] at hok

/-- When a browser restart (if one is needed) would return normally, the
`try`/`except` body never propagates an exception: it returns a string. -/
theorem sendCore_ret_ok (env : SendEnv) (pre : Nat) (cg : Option Nat) (conv1 : Conversation)
    (hpost : okB (restart_browser env.eR).result = true) :
    okB (sendCore env pre cg conv1).ret = true := by
  unfold sendCore
  cases env.chat <;> cases env.save <;>
    cases hrr : (restart_browser env.eR).result <;>
      simp_all [okB]

/-- The in-memory conversation after the `try`/`except` body: either exactly
`conv1` (delivery failed), or `conv1` with one assistant message appended,
`updated_at` set, and the url possibly refreshed from the live page. -/
theorem sendCore_conv_cases (env : SendEnv) (pre : Nat) (cg : Option Nat) (conv1 : Conversation) :
    (sendCore env pre cg conv1).conv = some conv1 ∨
      ∃ r, (sendCore env pre cg conv1).conv =
        some (update_conversation_url env.pageUrl
          { conv1 with
            messages := conv1.messages ++ [{ role := "assistant", content := r, timestamp := env.asstTs }]
            updated_at := env.updTs }) := by
  unfold sendCore
  cases hc : env.chat with
  | exn m =>
    cases hrr : (restart_browser env.eR).result <;> exact Or.inl (by simp [hrr])
  | ok r =>
    cases env.save <;> cases hrr : (restart_browser env.eR).result <;>
      exact Or.inr ⟨r, by simp [hrr]⟩

/-- Baseline `send` environment in which every collaborator call succeeds. -/
def sendEnvBase : SendEnv :=
  { e1 := ensureEnvOk, e2 := ensureEnvOk, chat := .ok "resp", pageUrl := none
    save := .ok (), eR := ensureEnvOk, idStamp := "20250101_120000"
    ts1 := "T1", ts2 := "T2", userTs := "T3", asstTs := "T4", updTs := "T5" }

/-- Environment in which the delivery call raises. -/
def sendEnvChatFail : SendEnv :=
  { sendEnvBase with chat := .exn "delivery failed" }

/-- C2 (counterexample): when `_ensure_browser` raises before the user
message is appended (here: the daemon fails to start), the `send` call
appends zero user messages, so "exactly one user Message per call" fails. -/
theorem c2_counterexample :
    ¬ (send { sendEnvBase with e1 := ensureEnvFail } none (some convEx) "hello").userAppends = 1 := by
  decide

/-- C2 (amended): for every call to `send` in which the browser/login setup
phase returns normally, exactly one user message and at most one assistant
message are appended; when delivery fails (the chat collaborator raises),
exactly one user message and zero assistant messages have been appended, and
the conversation in memory is exactly the old one plus that user message. -/
theorem c2_send_appends (env : SendEnv) (cg : Option Nat) (cur : Option Conversation) (message : String)
    (h1 : okB (ensure_browser env.e1 cg).result = true)
    (h2 : okB (ensure_browser env.e2 (ensure_browser env.e1 cg).chatgpt).result = true) :
    (send env cg cur message).userAppends = 1 ∧
      (send env cg cur message).asstAppends ≤ 1 ∧
      ∀ m, env.chat = .exn m →
        (send env cg cur message).asstAppends = 0 ∧
        (send env cg cur message).conv =
          some { currentOrNew env cur with
                 messages := (currentOrNew env cur).messages ++
                   [{ role := "user", content := message, timestamp := env.userTs }] } := by
  rw [send_setup_ok env cg cur message h1 h2]
  refine ⟨sendCore_userAppends _ _ _ _, sendCore_asstAppends_le_one _ _ _ _, ?_⟩
  intro m hm
  obtain ⟨hconv, hasst, _, _, _⟩ := sendCore_delivery_exn env _ _ _ m hm
  exact ⟨hasst, hconv⟩

theorem c2_send_appends_witness :
    okB (ensure_browser sendEnvChatFail.e1 (some 7)).result = true ∧
      okB (ensure_browser sendEnvChatFail.e2
        (ensure_browser sendEnvChatFail.e1 (some 7)).chatgpt).result = true ∧
      ((send sendEnvChatFail (some 7) (some convEx) "hi").userAppends = 1 ∧
        (send sendEnvChatFail (some 7) (some convEx) "hi").asstAppends ≤ 1 ∧
        ∀ m, sendEnvChatFail.chat = .exn m →
          (send sendEnvChatFail (some 7) (some convEx) "hi").asstAppends = 0 ∧
          (send sendEnvChatFail (some 7) (some convEx) "hi").conv =
            some { currentOrNew sendEnvChatFail (some convEx) with
                   messages := (currentOrNew sendEnvChatFail (some convEx)).messages ++
                     [{ role := "user", content := "hi", timestamp := sendEnvChatFail.userTs }] }) :=
  ⟨rfl, rfl, c2_send_appends sendEnvChatFail (some 7) (some convEx) "hi" rfl rfl⟩

/-- C3 (counterexample): with a live browser, a delivery failure triggers
exactly one reconnect cycle (the restart) and the failure is surfaced as the
string "Error: delivery failed" with the delivery collaborator having been
invoked exactly once — the original request is never retried after the
reconnect, contradicting "retries the original send request exactly once
before surfacing failure". -/
theorem c3_counterexample :
    (send sendEnvChatFail (some 7) (some convEx) "m").chatCalls = 1 ∧
      (send sendEnvChatFail (some 7) (some convEx) "m").postReconnects = 1 ∧
      (send sendEnvChatFail (some 7) (some convEx) "m").ret = .ok "Error: delivery failed" := by
  decide

/-- C3 (amended): when the pre-send health check reports not-alive and the
reconnect succeeds, exactly one reconnect cycle runs before the delivery
attempt and the original request is then attempted exactly once; if that
delivery attempt raises, exactly one further reconnect cycle (the browser
restart) runs and the failure is surfaced — as the "Error: " string when
the restart returns normally — without the request being retried. -/
theorem c3_one_reconnect_no_retry (env : SendEnv) (h : Nat) (cur : Option Conversation) (message : String)
    (hdead : env.e1.alive = false)
    (hrec : okB (reconnect env.e1).result = true)
    (halive2 : env.e2.alive = true) :
    (send env (some h) cur message).preReconnects = 1 ∧
      (send env (some h) cur message).chatCalls = 1 ∧
      ∀ m, env.chat = .exn m →
        (send env (some h) cur message).postReconnects = 1 ∧
        (okB (restart_browser env.eR).result = true →
          (send env (some h) cur message).ret = .ok ("Error: " ++ m)) := by
  have he1 : ensure_browser env.e1 (some h) = reconnect env.e1 := by
    simp [ensure_browser, hdead]
  have h1 : okB (ensure_browser env.e1 (some h)).result = true := by
    rw [he1]; exact hrec
  have he2 : ensure_browser env.e2 (ensure_browser env.e1 (some h)).chatgpt =
      { result := .ok env.e1.newHandle, chatgpt := some env.e1.newHandle, reconnects := 0 } := by
    rw [he1, reconnect_chatgpt]
    simp [ensure_browser, halive2]
  have h2 : okB (ensure_browser env.e2 (ensure_browser env.e1 (some h)).chatgpt).result = true := by
    rw [he2]; rfl
  rw [send_setup_ok env (some h) cur message h1 h2]
  rw [he2, he1]
  refine ⟨?_, sendCore_chatCalls _ _ _ _, ?_⟩
  · rw [sendCore_preReconnects, reconnect_reconnects]; rfl
  · intro m hm
    obtain ⟨_, _, _, hpost, hret⟩ := sendCore_delivery_exn env _ _ _ m hm
    exact ⟨hpost, hret⟩

/-- Environment for the C3 witness: existing handle reported dead, the
reconnect succeeds, and delivery then raises. -/
def sendEnvDeadChatFail : SendEnv :=
  { sendEnvBase with e1 := ensureEnvDead, chat := .exn "boom" }

theorem c3_one_reconnect_no_retry_witness :
    sendEnvDeadChatFail.e1.alive = false ∧
      okB (reconnect sendEnvDeadChatFail.e1).result = true ∧
      sendEnvDeadChatFail.e2.alive = true ∧
      ((send sendEnvDeadChatFail (some 7) (some convEx) "m").preReconnects = 1 ∧
        (send sendEnvDeadChatFail (some 7) (some convEx) "m").chatCalls = 1 ∧
        ∀ m, sendEnvDeadChatFail.chat = .exn m →
          (send sendEnvDeadChatFail (some 7) (some convEx) "m").postReconnects = 1 ∧
          (okB (restart_browser sendEnvDeadChatFail.eR).result = true →
            (send sendEnvDeadChatFail (some 7) (some convEx) "m").ret = .ok ("Error: " ++ m))) :=
  ⟨rfl, rfl, rfl,
    c3_one_reconnect_no_retry sendEnvDeadChatFail 7 (some convEx) "m" rfl rfl rfl⟩

/-- C9: calling `send` with no current conversation does not fail on account
of the missing conversation: provided the browser setup returns normally
(and a restart, if one is needed, would too), `send` returns a string, and
the conversation in memory is a freshly created one — id `"conv_" ++ stamp`,
default title `"Conversation {id}"`, `created_at` from creation time, whose
message list started empty and whose first message is the appended user
message. -/
theorem c9_send_implicitly_starts_conversation (env : SendEnv) (cg : Option Nat) (message : String)
    (h1 : okB (ensure_browser env.e1 cg).result = true)
    (h2 : okB (ensure_browser env.e2 (ensure_browser env.e1 cg).chatgpt).result = true)
    (hpost : okB (restart_browser env.eR).result = true) :
    okB (send env cg none message).ret = true ∧
      ∃ c, (send env cg none message).conv = some c ∧
        c.id = "conv_" ++ env.idStamp ∧
        c.title = "Conversation " ++ ("conv_" ++ env.idStamp) ∧
        c.created_at = env.ts1 ∧
        c.messages.head? = some { role := "user", content := message, timestamp := env.userTs } := by
  rw [send_setup_ok env cg none message h1 h2]
  refine ⟨sendCore_ret_ok env _ _ _ hpost, ?_⟩
  rcases sendCore_conv_cases env
      ((ensure_browser env.e1 cg).reconnects +
        (ensure_browser env.e2 (ensure_browser env.e1 cg).chatgpt).reconnects)
      (ensure_browser env.e2 (ensure_browser env.e1 cg).chatgpt).chatgpt
      { currentOrNew env none with
        messages := (currentOrNew env none).messages ++
          [{ role := "user", content := message, timestamp := env.userTs }] } with
    hconv | ⟨r, hconv⟩
  · refine ⟨_, hconv, rfl, rfl, rfl, ?_⟩
    simp [currentOrNew, start_conversation]
  · refine ⟨_, hconv, ?_, ?_, ?_, ?_⟩
    · exact (update_conversation_url_frame _ _).1
    · exact (update_conversation_url_frame _ _).2.1
    · exact (update_conversation_url_frame _ _).2.2.1
    · rw [(update_conversation_url_frame _ _).2.2.2.2]
      simp [currentOrNew, start_conversation]

theorem c9_send_implicitly_starts_conversation_witness :
    okB (ensure_browser sendEnvBase.e1 none).result = true ∧
      okB (ensure_browser sendEnvBase.e2 (ensure_browser sendEnvBase.e1 none).chatgpt).result = true ∧
      okB (restart_browser sendEnvBase.eR).result = true ∧
      (okB (send sendEnvBase none none "hi").ret = true ∧
        ∃ c, (send sendEnvBase none none "hi").conv = some c ∧
          c.id = "conv_" ++ sendEnvBase.idStamp ∧
          c.title = "Conversation " ++ ("conv_" ++ sendEnvBase.idStamp) ∧
          c.created_at = sendEnvBase.ts1 ∧
          c.messages.head? = some { role := "user", content := "hi", timestamp := sendEnvBase.userTs }) :=
  ⟨rfl, rfl, rfl, c9_send_implicitly_starts_conversation sendEnvBase none "hi" rfl rfl rfl⟩

/-- Environment for the C10 counterexample: delivery raises, and the browser
restart performed by the `except` handler itself raises ("Failed to start
browser daemon"). -/
def sendEnvRestartFail : SendEnv :=
  { sendEnvBase with chat := .exn "boom", eR := ensureEnvFail }

/-- C10 (counterexample): `send` does propagate an exception: when delivery
raises and the browser restart inside the `except` handler raises too, the
restart's exception escapes to the caller instead of an "Error: " string. -/
theorem c10_counterexample :
    (send sendEnvRestartFail (some 7) (some convEx) "m").ret =
      .exn "Failed to start browser daemon" := by
  decide

/-- C10 (amended): when the setup phase returns normally, an exception raised
by the delivery call is caught and — provided the browser restart performed
by the `except` handler returns normally — `send` returns the ordinary
string `"Error: " ++ message`; in that failure case the conversation is the
old one with only the user message appended (`updated_at` untouched) and no
auto-save is attempted.  Exceptions raised by the setup phase or by the
restart itself do propagate to the caller. -/
theorem c10_delivery_error_is_string (env : SendEnv) (cg : Option Nat) (c : Conversation)
    (message m : String)
    (h1 : okB (ensure_browser env.e1 cg).result = true)
    (h2 : okB (ensure_browser env.e2 (ensure_browser env.e1 cg).chatgpt).result = true)
    (hm : env.chat = .exn m)
    (hpost : okB (restart_browser env.eR).result = true) :
    (send env cg (some c) message).ret = .ok ("Error: " ++ m) ∧
      (send env cg (some c) message).conv =
        some { c with messages := c.messages ++
          [{ role := "user", content := message, timestamp := env.userTs }] } ∧
      (send env cg (some c) message).saveAttempts = 0 := by
  rw [send_setup_ok env cg (some c) message h1 h2]
  obtain ⟨hconv, _, hsave, _, hret⟩ := sendCore_delivery_exn env
    ((ensure_browser env.e1 cg).reconnects +
      (ensure_browser env.e2 (ensure_browser env.e1 cg).chatgpt).reconnects)
    (ensure_browser env.e2 (ensure_browser env.e1 cg).chatgpt).chatgpt
    { currentOrNew env (some c) with
      messages := (currentOrNew env (some c)).messages ++
        [{ role := "user", content := message, timestamp := env.userTs }] } m hm
  exact ⟨hret hpost, hconv, hsave⟩

theorem c10_delivery_error_is_string_witness :
    okB (ensure_browser sendEnvChatFail.e1 (some 7)).result = true ∧
      okB (ensure_browser sendEnvChatFail.e2
        (ensure_browser sendEnvChatFail.e1 (some 7)).chatgpt).result = true ∧
      sendEnvChatFail.chat = .exn "delivery failed" ∧
      okB (restart_browser sendEnvChatFail.eR).result = true ∧
      ((send sendEnvChatFail (some 7) (some convEx) "q").ret = .ok ("Error: " ++ "delivery failed") ∧
        (send sendEnvChatFail (some 7) (some convEx) "q").conv =
          some { convEx with messages := convEx.messages ++
            [{ role := "user", content := "q", timestamp := sendEnvChatFail.userTs }] } ∧
        (send sendEnvChatFail (some 7) (some convEx) "q").saveAttempts = 0) :=
  ⟨rfl, rfl, rfl, rfl,
    c10_delivery_error_is_string sendEnvChatFail (some 7) convEx "q" "delivery failed" rfl rfl rfl rfl⟩

/-! ## `close` / `close_browser` (`manager.py`) and the Session Descriptor
(`base.py` `CDP_STATE_FILE`, `_clear_cdp_endpoint`) -/

/-- The durable state `close` could conceivably touch: the Session
Descriptor file `~/.chat_automation/browser_cdp.json`, the saved
conversation files, and the daemon PID file. -/
structure DurableState where
  /-- Does the Session Descriptor file exist? -/
  descriptor : Bool
  /-- Saved conversation files (path and parsed contents). -/
  conversationFiles : List (String × ConvData)
  /-- Does the daemon PID file exist? -/
  pidFile : Bool
deriving DecidableEq, Repr

/-- `_clear_cdp_endpoint`: unlink the descriptor file if it exists. -/
def clear_cdp_endpoint (d : DurableState) : DurableState :=
  { d with descriptor := false }

/-- `ChatManager.close`: a no-op on durable state when no handle is held;
with a handle, soft close (`keep_browser_open=True`) runs `stop()` — which
never clears the descriptor — while hard close runs
`close_browser() = stop(); _clear_cdp_endpoint()`, so when `stop()` raises
the clearing is skipped (the exception is caught by `close`).  In every case
`self._chatgpt` ends up `None`. -/
def close (keepBrowserOpen stopRaises : Bool) (cg : Option Nat) (d : DurableState) :
    DurableState × Option Nat :=
  match cg with
  | none => (d, none)
  | some _ =>
    if keepBrowserOpen then (d, none)
    else if stopRaises then (d, none)
    else (clear_cdp_endpoint d, none)

/-- `ChatManager.close_browser`: `close(keep_browser_open=False)`. -/
def close_browser (stopRaises : Bool) (cg : Option Nat) (d : DurableState) :
    DurableState × Option Nat :=
  close false stopRaises cg d

/-- Sample durable state with an existing descriptor. -/
def durableEx : DurableState :=
  { descriptor := true, conversationFiles := [("c1.json", exportData convEx)], pidFile := true }

/-- C4 (counterexample): a hard close does not always delete the Session
Descriptor — with no connection handle held (`self._chatgpt is None`),
`close(keep_browser_open=False)` returns without touching it. -/
theorem c4_counterexample :
    ¬ ((close false false none durableEx).1.descriptor = false) := by
  decide

/-- C4 (amended): a soft close never deletes the Session Descriptor; a hard
close deletes it exactly when a connection handle is held and the underlying
`stop()` does not raise; and `close` touches no other durable state (the
conversation files and the PID file are unchanged in every case). -/
theorem c4_close_descriptor (keepBrowserOpen stopRaises : Bool) (cg : Option Nat) (d : DurableState) :
    (close keepBrowserOpen stopRaises cg d).1 =
      { d with descriptor :=
          if !keepBrowserOpen && cg.isSome && !stopRaises then false else d.descriptor } := by
  cases cg <;> cases keepBrowserOpen <;> cases stopRaises <;>
    simp [close, clear_cdp_endpoint]

/-! ## `_start_daemon` (`manager.py`): the daemon launcher -/

/-- How `_start_daemon` spawns and waits: `subprocess.Popen` with
`start_new_session=True` (detached), then `for _ in range(20)`: sleep one
second and probe `http://127.0.0.1:9222/json`. -/
structure SpawnSpec where
  detached : Bool
  pollIntervalSeconds : Nat
  maxPolls : Nat
deriving DecidableEq, Repr

/-- The constants of `_start_daemon`. -/
def start_daemon_spawn : SpawnSpec :=
  { detached := true, pollIntervalSeconds := 1, maxPolls := 20 }

/-- The polling loop of `_start_daemon`: `probe i` is whether the
reachability probe succeeds on iteration `i` (one iteration per second);
the loop returns `True` at the first success and `False` after
`maxPolls` iterations. -/
def start_daemon_poll (probe : Nat → Bool) : Bool :=
  (List.range start_daemon_spawn.maxPolls).any probe

/-- C5 (counterexample): an endpoint that becomes reachable from the 25th
poll onward — within the claimed 30-second bound — still makes
`_start_daemon` return a timeout failure, because the code polls only 20
times at 1-second intervals. -/
theorem c5_counterexample :
    start_daemon_poll (fun i => decide (24 ≤ i)) = false ∧
      (fun i => decide (24 ≤ i)) 24 = true ∧ 24 < 30 := by
  decide

/-- C5 (amended): the daemon launcher spawns a detached process (new session
group) and polls the reachability probe at 1-second intervals up to a bound
of 20 polls (≈20 seconds, not 30): it returns success iff some poll within
the first 20 succeeds, and a timeout failure (`False`) otherwise — it never
loops forever. -/
theorem c5_poll_bound (probe : Nat → Bool) :
    (start_daemon_poll probe = true ↔ ∃ i, i < 20 ∧ probe i = true) ∧
      start_daemon_spawn.detached = true ∧
      start_daemon_spawn.pollIntervalSeconds = 1 ∧
      start_daemon_spawn.maxPolls = 20 := by
  refine ⟨?_, rfl, rfl, rfl⟩
  simp [start_daemon_poll, start_daemon_spawn, List.any_eq_true, List.mem_range]

/-! ## Session Descriptor contents (`base.py` `_save_cdp_endpoint`,
`_launch_new_browser`) and the files `_start_daemon` writes -/

/-- The files relevant to `_start_daemon`'s side effects. -/
structure DaemonFiles where
  /-- Parsed contents of the Session Descriptor file
  `browser_cdp.json`, when it exists. -/
  descriptorFile : Option (List (String × String))
  /-- Has the helper script `daemon_runner.py` been written? -/
  daemonScript : Bool
  /-- Does the daemon PID file exist? -/
  pidFile : Bool
deriving DecidableEq, Repr

/-- `_save_cdp_endpoint`: the JSON object written to the descriptor file is
`{'ws_endpoint': ws_endpoint}`. -/
def save_cdp_endpoint (ws : String) : List (String × String) :=
  [("ws_endpoint", ws)]

/-- The endpoint string `_launch_new_browser` saves:
`f"ws://127.0.0.1:{CDP_PORT}"` with `CDP_PORT = 9222`. -/
def launch_ws_endpoint : String :=
  "ws://127.0.0.1:" ++ toString (9222 : Nat)

/-- Durable effect of `_start_daemon` itself: it writes the daemon runner
script (and the spawned daemon later writes the PID file), but it never
writes the Session Descriptor file. -/
def start_daemon_files (fs : DaemonFiles) : DaemonFiles :=
  { fs with daemonScript := true }

/-- C6 (counterexample): starting from a state with no descriptor file, a
successful `_start_daemon` run leaves the descriptor file still absent — in
particular it does not contain `{"endpoint": "ws://127.0.0.1:9222"}`. -/
theorem c6_counterexample :
    ¬ ((start_daemon_files { descriptorFile := none, daemonScript := false, pidFile := false }).descriptorFile =
      some [("endpoint", "ws://127.0.0.1:9222")]) := by
  decide

/-- C6 (amended): `_start_daemon` leaves the Session Descriptor file
untouched (it writes only the daemon runner script); the descriptor file,
when it is written at all (by the browser-launch path via
`_save_cdp_endpoint`), contains `{"ws_endpoint": "ws://127.0.0.1:9222"}` —
the key is `"ws_endpoint"`, not `"endpoint"`. -/
theorem c6_descriptor_key (fs : DaemonFiles) :
    (start_daemon_files fs).descriptorFile = fs.descriptorFile ∧
      save_cdp_endpoint launch_ws_endpoint = [("ws_endpoint", "ws://127.0.0.1:9222")] := by
  exact ⟨rfl, rfl⟩

/-! ## `load_conversation` / `open_conversation_by_url` (`manager.py`) -/

/-- `open_conversation_by_url`: `_ensure_browser`, `goto(url)`, then record
the url on the current conversation and return `True`; any exception in the
`try` block — including failing to obtain a browser — is caught and maps to
`False`. -/
def open_conversation_by_url (env : EnsureEnv) (go : Outcome Unit) (cg : Option Nat)
    (cur : Option Conversation) (url : String) : Bool × Option Conversation × Option Nat :=
  let r := ensure_browser env cg
  match r.result with
  | .exn _ => (false, cur, r.chatgpt)
  | .ok _ =>
    match go with
    | .exn _ => (false, cur, r.chatgpt)
    | .ok _ =>
      (true,
        match cur with
        | some c => some { c with url := some url }
        | none => none,
        r.chatgpt)

/-- How reading the conversation file went in `load_conversation`:
`open()` raised (file missing/unreadable), `json.load` raised
(`json.JSONDecodeError`), or a dict was parsed. -/
inductive FileRead where
  | missing : FileRead
  | badJson : FileRead
  | parsed : ConvData → FileRead
deriving DecidableEq, Repr

/-- Result of `load_conversation`: its boolean return, the in-memory
conversation and handle afterwards, and whether a navigation to the
conversation's url was attempted. -/
structure LoadResult where
  success : Bool
  conv : Option Conversation
  chatgpt : Option Nat
  navAttempted : Bool
deriving DecidableEq, Repr

/-- `load_conversation`: read and parse the file (any failure returns
`False` with the state untouched), check the five required fields, install
the conversation, and — when it carries a url — call
`open_conversation_by_url`, whose boolean result is ignored; the load then
returns `True` regardless. -/
def load_conversation (env : EnsureEnv) (go : Outcome Unit) (cg : Option Nat)
    (cur : Option Conversation) (file : FileRead) : LoadResult :=
  match file with
  | .missing => { success := false, conv := cur, chatgpt := cg, navAttempted := false }
  | .badJson => { success := false, conv := cur, chatgpt := cg, navAttempted := false }
  | .parsed d =>
    match conversationFromData d with
    | none => { success := false, conv := cur, chatgpt := cg, navAttempted := false }
    | some c =>
      match c.url with
      | some u =>
        let r := open_conversation_by_url env go cg (some c) u
        { success := true, conv := r.2.1, chatgpt := r.2.2, navAttempted := true }
      | none => { success := true, conv := some c, chatgpt := cg, navAttempted := false }

/-- C7: for every conversation file that deserializes successfully and
carries a url, `load_conversation` attempts the navigation, and whatever the
navigation does — including failing to obtain a browser — the load reports
success and the loaded conversation (with its message history) is the
in-memory conversation. -/
theorem c7_load_navigation_best_effort (env : EnsureEnv) (go : Outcome Unit) (cg : Option Nat)
    (cur : Option Conversation) (d : ConvData) (c : Conversation) (u : String)
    (hd : conversationFromData d = some c) (hu : c.url = some u) :
    (load_conversation env go cg cur (.parsed d)).success = true ∧
      (load_conversation env go cg cur (.parsed d)).navAttempted = true ∧
      (load_conversation env go cg cur (.parsed d)).conv = some c := by
  have hceq : ({ c with url := some u } : Conversation) = c := by
    obtain ⟨i, t, ms, ca, ua, curl⟩ := c
    simp only at hu
    rw [hu]
  unfold load_conversation
  simp only [hd, hu]
  cases hr : (ensure_browser env cg).result <;> cases go <;>
    simp [open_conversation_by_url, hr, hceq]

/-- Conversation-file dict used by the C7 witness: all required fields
present and a remote url recorded. -/
def convDataEx : ConvData :=
  { id := some "c1", title := some "t"
    messages := some [{ role := some "user", content := some "hi", timestamp := some "T1" }]
    created_at := some "T0", updated_at := some "T0"
    url := some "https://chatgpt.com/c/abc" }

theorem c7_load_navigation_best_effort_witness :
    conversationFromData convDataEx =
        some { convEx with url := some "https://chatgpt.com/c/abc" } ∧
      ({ convEx with url := some "https://chatgpt.com/c/abc" } : Conversation).url =
        some "https://chatgpt.com/c/abc" ∧
      ((load_conversation ensureEnvFail (.ok ()) none none (.parsed convDataEx)).success = true ∧
        (load_conversation ensureEnvFail (.ok ()) none none (.parsed convDataEx)).navAttempted = true ∧
        (load_conversation ensureEnvFail (.ok ()) none none (.parsed convDataEx)).conv =
          some { convEx with url := some "https://chatgpt.com/c/abc" }) :=
  ⟨rfl, rfl,
    c7_load_navigation_best_effort ensureEnvFail (.ok ()) none none convDataEx
      { convEx with url := some "https://chatgpt.com/c/abc" } "https://chatgpt.com/c/abc" rfl rfl⟩

end ChatAutomation
